import Mathlib

/-!
Verification of the Sojourn booking client and of the booking-lifecycle /
reservation-ledger core its documentation describes.

Part 1 embeds the client code that is present in the repository
(lib/config.ts, lib/payment-utils.ts and its legacy copy, and the booking
page app/hotels/[id]/book/[roomId]/page.tsx).

Part 2 models the backend core (BookingStateMachine, ReservationLedger,
PaymentOrderCoordinator, PaymentVerifier) which the repository only calls
over HTTP; those definitions are modelled from the specification document.

Part 3 states and proves the properties.
-/

/- ===================== Part 1: client-side code ===================== -/

/-- Statuses declared in lib/config.ts, field bookingStatuses (lines 22-28):
each key with its documentation string, in source order. -/
def bookingStatuses : List (String × String) :=
  [("DRAFT", "Booking created, room not yet reserved"),
   ("PENDING", "Payment initiated, room reserved"),
   ("CONFIRMED", "Payment successful, booking confirmed"),
   ("CANCELLED", "Booking cancelled"),
   ("COMPLETED", "Stay completed")]

/-- Status keys of lib/config.ts bookingStatuses. -/
def configStatusKeys : List String := bookingStatuses.map Prod.fst

/-- Status union type of the Booking interface in the bookings page
(src/unnamed/part_002, line 14): "PENDING" | "CONFIRMED" | "CANCELLED" |
"COMPLETED". -/
def clientBookingStatusValues : List String :=
  ["PENDING", "CONFIRMED", "CANCELLED", "COMPLETED"]

/-- Status set named by the specification (section 3): the six values the
spec says are the only observable booking statuses. This definition follows
the words of the spec, for comparison with the declarations in the code. -/
def specStatusValues : List String :=
  ["DRAFT", "PENDING", "CONFIRMED", "CANCELLED", "EXPIRED", "PAYMENT_FAILED"]

/- ---- calculatePricing (booking page, lines 223-246): night count ---- -/

/-- Milliseconds in one day, the divisor 1000 * 60 * 60 * 24 used by
calculatePricing. -/
def dayMs : Int := 1000 * 60 * 60 * 24

/-- Milliseconds since the epoch of a calendar date, the value
new Date(dateString).getTime() yields for a date-only string: day number
times 86400000 (date-only strings parse to UTC midnight). -/
def msOfDate (day : Nat) : Int := (day : Int) * dayMs

/-- Ceiling division modelling Math.ceil (a / b) for integers a and b with
b positive: the ceiling of the rational a / b. -/
def jsMathCeilDiv (a b : Int) : Int := -((-a).ediv b)

/-- Night count computed by calculatePricing (booking page, lines 229-233):
Math.ceil of the millisecond difference of the parsed dates divided by
86400000, with dates given as day numbers. -/
def calculateNights (checkIn checkOut : Nat) : Int :=
  jsMathCeilDiv (msOfDate checkOut - msOfDate checkIn) dayMs

/- ---- guest list handling (booking page) ---- -/

/-- Guest entry of the booking form, from the guestDetails array element
type of the BookingData interface (booking page, lines 27-35). -/
structure Guest where
  firstName : String
  lastName : String
  age : Option Nat
  idProofType : String
  idProofNumber : String
  isPrimaryGuest : Bool
  specialRequests : String
deriving DecidableEq

/-- User details of the booking form; the fields validateForm reads. -/
structure UserDetails where
  firstName : String
  lastName : String
deriving DecidableEq

/-- Booking form data; the fields the submission logic reads. -/
structure BookingFormData where
  userDetails : UserDetails
  guestDetails : List Guest
deriving DecidableEq

/-- Blank guest entry pushed by setupAdditionalGuests, with the given
primary flag. -/
def blankGuest (primary : Bool) : Guest :=
  { firstName := "", lastName := "", age := none, idProofType := "",
    idProofNumber := "", isPrimaryGuest := primary, specialRequests := "" }

/-- setupAdditionalGuests (booking page, lines 182-221): one primary guest
followed by guests - 1 additional non-primary guests. -/
def setupAdditionalGuests (guests : Nat) : List Guest :=
  blankGuest true :: List.replicate (guests - 1) (blankGuest false)

/-- Branch of handleInputChange for field guest.i.isPrimaryGuest with value
"true" (booking page, lines 263-271): every guest gets isPrimaryGuest set
to whether its index equals the selected index. -/
def setPrimaryGuest (guestDetails : List Guest) (guestIndex : Nat) : List Guest :=
  guestDetails.mapIdx (fun i g => { g with isPrimaryGuest := i == guestIndex })

/-- Number of guests with the primary flag set, as counted by validateForm
via filter on isPrimaryGuest. -/
def countPrimaryGuests (guestDetails : List Guest) : Nat :=
  (guestDetails.filter (fun g => g.isPrimaryGuest)).length

/-- validateForm (booking page, lines 296-322): user first and last name
must be nonempty (JS truthiness of strings), every guest needs nonempty
first and last name, and exactly one guest must be primary. -/
def validateForm (fd : BookingFormData) : Bool :=
  if fd.userDetails.firstName == "" || fd.userDetails.lastName == "" then false
  else if fd.guestDetails.any (fun g => g.firstName == "" || g.lastName == "") then false
  else if countPrimaryGuests fd.guestDetails != 1 then false
  else true

/-- Payload createBooking (booking page, lines 324-335) submits to the
backend: it returns early when validateForm fails, otherwise it posts the
form data. -/
def createBookingPayload (fd : BookingFormData) : Option BookingFormData :=
  if validateForm fd then some fd else none

/- ---- PaymentUtils.formatPaymentOptions (lib/payment-utils.ts) ---- -/

/-- Prefill block of the payment payload. -/
structure PaymentPrefill where
  name : Option String
  email : Option String
  contact : Option String
deriving DecidableEq

/-- Theme block of the payment payload. -/
structure PaymentTheme where
  color : Option String
deriving DecidableEq

/-- Retry block of the payment payload. -/
structure PaymentRetry where
  enabled : Option Bool
  max_count : Option Nat
deriving DecidableEq

/-- Per-field flags used by the readonly and hidden blocks. -/
structure PaymentFieldFlags where
  email : Option Bool
  contact : Option Bool
  name : Option Bool
deriving DecidableEq

/-- PaymentBackendData (lib/payment-utils.ts, lines 10-44): the payment
payload the backend returns from create-order. Function-valued fields do
not occur; notes is a string map. -/
structure PaymentBackendData where
  key : String
  amount : Int
  currency : String
  order_id : String
  orderId : Option String
  name : Option String
  description : Option String
  image : Option String
  prefill : Option PaymentPrefill
  theme : Option PaymentTheme
  retry : Option PaymentRetry
  timeout : Option Nat
  remember_customer : Option Bool
  readonly : Option PaymentFieldFlags
  hidden : Option PaymentFieldFlags
  notes : List (String × String)
deriving DecidableEq

/-- RazorpayOptions (lib/payment-utils.ts, lines 52-89), without the two
function-valued fields handler and modal, which carry the callbacks. -/
structure RazorpayOptions where
  key : String
  amount : Int
  currency : String
  name : String
  description : String
  image : Option String
  order_id : String
  prefill : Option PaymentPrefill
  theme : Option PaymentTheme
  retry : Option PaymentRetry
  timeout : Option Nat
  remember_customer : Option Bool
  readonly : Option PaymentFieldFlags
  hidden : Option PaymentFieldFlags
  notes : List (String × String)
deriving DecidableEq

/-- JavaScript a || b for an optional string a: undefined and the empty
string are falsy, any other string wins. -/
def jsOrString (a : Option String) (b : String) : String :=
  match a with
  | some s => if s == "" then b else s
  | none => b

/-- PaymentUtils.formatPaymentOptions (lib/payment-utils.ts, lines
143-174): builds the checkout options from the backend payload. The
bookingId argument is accepted and unused, as in the source; the
function-valued handler and modal fields are omitted. -/
def formatPaymentOptions (paymentData : PaymentBackendData)
    (bookingId : String) : RazorpayOptions :=
  { key := paymentData.key
    amount := paymentData.amount
    currency := paymentData.currency
    name := jsOrString paymentData.name "Sojourn"
    description := jsOrString paymentData.description "Hotel Booking"
    image := paymentData.image
    order_id := jsOrString paymentData.orderId paymentData.order_id
    prefill := paymentData.prefill
    theme := paymentData.theme
    retry := paymentData.retry
    timeout := paymentData.timeout
    remember_customer := paymentData.remember_customer
    readonly := paymentData.readonly
    hidden := paymentData.hidden
    notes := paymentData.notes }

/- ---- PaymentUtils.safeGet: typed and legacy implementations ---- -/

mutual
/-- JavaScript value as the two safeGet implementations observe it:
undefined, null, booleans, numbers (modelled as integers), strings,
function values (carrying only a name; typeof gives "function" for them,
so the typed implementation rejects them as non-objects), and plain
objects with ordered string-keyed own fields. -/
inductive JSValue where
  | undef : JSValue
  | null : JSValue
  | bool : Bool → JSValue
  | num : Int → JSValue
  | str : String → JSValue
  | fn : String → JSValue
  | obj : JSFields → JSValue

/-- Own-field list of a JavaScript object. -/
inductive JSFields where
  | nil : JSFields
  | cons : String → JSValue → JSFields → JSFields
end

/-- Own-property lookup in a field list, first binding of the key wins:
the hasOwnProperty test of the typed implementation together with the own
read that follows it. -/
def lookupField : JSFields → String → Option JSValue
  | JSFields.nil, _ => none
  | JSFields.cons k v rest, key => if k == key then some v else lookupField rest key

/-- JavaScript truthiness: undefined, null, false, 0 and the empty string
are falsy; every other value, objects and functions included, is truthy. -/
def jsTruthy : JSValue → Bool
  | JSValue.undef => false
  | JSValue.null => false
  | JSValue.bool b => b
  | JSValue.num n => !(n == 0)
  | JSValue.str s => !(s == "")
  | JSValue.fn _ => true
  | JSValue.obj _ => true

/-- Prototype environment: the resolution of property reads that do not
hit an own field — prototype-chain lookups (such as toString inherited
from Object.prototype) and primitive property access through boxing (such
as the length of a string). It is kept abstract, so the model ranges over
every actual prototype state; none means the read yields undefined. -/
structure JSEnv where
  inherited : JSValue → String → Option JSValue

/-- Property read current[key] as the legacy implementation performs it:
an own field of a plain object shadows the whole prototype chain;
otherwise the prototype environment answers. On null and undefined the
real code never reaches the read (the && short-circuits on their
falsiness), so the value chosen there is irrelevant to every result; it
is set to undefined. -/
def jsGetField (env : JSEnv) (current : JSValue) (key : String) : JSValue :=
  match current with
  | JSValue.obj fields =>
    match lookupField fields key with
    | some v => v
    | none => (env.inherited current key).getD JSValue.undef
  | JSValue.undef => JSValue.undef
  | JSValue.null => JSValue.undef
  | _ => (env.inherited current key).getD JSValue.undef

/-- Whether a value is undefined, modelling the !== undefined test. -/
def isUndef : JSValue → Bool
  | JSValue.undef => true
  | _ => false

/-- Typed PaymentUtils.safeGet (lib/payment-utils.ts, lines 177-198).
Both implementations first split the dot-separated path; parts stands for
the key list path.split(".") and the loop descends while the current value
is a non-null object owning the key, otherwise returns the default; after
the last key the current value is returned as is. Only own fields are
consulted (hasOwnProperty), so no prototype environment is involved. -/
def safeGetTyped : JSValue → List String → JSValue → JSValue
  | current, [], _ => current
  | current, key :: rest, dflt =>
    match current with
    | JSValue.obj fields =>
      match lookupField fields key with
      | some v => safeGetTyped v rest dflt
      | none => dflt
    | _ => dflt

/-- Reduce step of the legacy PaymentUtils.safeGet (src/unnamed/part_000,
lines 126-132): current && current[key] !== undefined ? current[key] :
defaultValue, the property read resolved in the prototype environment. -/
def safeGetLegacyStep (env : JSEnv) (dflt current : JSValue) (key : String) : JSValue :=
  if jsTruthy current && !(isUndef (jsGetField env current key)) then
    jsGetField env current key
  else dflt

/-- Legacy PaymentUtils.safeGet (src/unnamed/part_000, lines 126-132):
path.split(".").reduce over the object with the truthiness-guarded step;
parts stands for the key list path.split("."). -/
def safeGetLegacy (env : JSEnv) (obj : JSValue) (parts : List String)
    (defaultValue : JSValue) : JSValue :=
  parts.foldl (safeGetLegacyStep env defaultValue) obj

/-- Whether the typed traversal succeeds on own fields alone: every path
key is an own field of a plain object and no value read along the path is
undefined. In this regime own fields shadow the whole prototype chain, so
both implementations read exactly the same values. -/
def ownChainDefined : JSValue → List String → Bool
  | _, [] => true
  | JSValue.obj fields, key :: rest =>
    (match lookupField fields key with
     | some v => !(isUndef v) && ownChainDefined v rest
     | none => false)
  | _, _ :: _ => false

/- ============ Part 2: booking core, modelled from the spec ============ -/

/-- Modelled from the spec: the booking status set of section 3 for the
backend core, which is absent from the repository (only its HTTP callers
and its documentation are present). -/
inductive BookingStatus where
  | DRAFT | PENDING | CONFIRMED | CANCELLED | EXPIRED | PAYMENT_FAILED
deriving DecidableEq

/-- Modelled from the spec: the Booking record of section 3. Dates are day
numbers; identifiers and amounts are naturals; ownership is the callerId
capability of section 1. -/
structure Booking where
  hotelId : Nat
  roomId : Nat
  checkIn : Nat
  checkOut : Nat
  guestCount : Nat
  totalAmount : Nat
  ownerId : Nat
  status : BookingStatus
  expiresAt : Option Nat
  paymentOrderId : Option Nat
  verifyAttemptCount : Nat
  refundEligible : Bool
  createdAt : Nat
deriving DecidableEq

/-- Modelled from the spec: a RoomNightHold row of section 3, keyed by
(roomId, night), owned by a booking; permanent replaces the nullable
heldUntil (permanent means heldUntil = null). -/
structure Hold where
  roomId : Nat
  night : Nat
  bookingId : Nat
  permanent : Bool
deriving DecidableEq

/-- Modelled from the spec: configuration of section 6 (HOLD_TTL_MINUTES,
DRAFT_TTL_HOURS, MAX_VERIFY_ATTEMPTS), in abstract time units. -/
structure Config where
  holdTTL : Nat
  draftTTL : Nat
  maxVerifyAttempts : Nat

/-- Modelled from the spec: persisted state of section 6, a bookings table
keyed by bookingId and the room_night_holds rows. -/
structure LedgerState where
  bookings : Nat → Option Booking
  holds : List Hold

/-- Modelled from the spec: gateway order parameters of section 4.3
(gateway key, amount, currency, order id, display metadata). -/
structure OrderParams where
  gatewayKey : String
  amount : Nat
  currency : String
  gatewayOrderId : Nat
  displayName : String
deriving DecidableEq

/-- Modelled from the spec: error taxonomy of sections 6 and 7. -/
inductive BookingError where
  | InvalidRequest | RoomUnavailable | NotFound | Forbidden
  | GatewayUnavailable | SignatureMismatch | InvalidTransition
deriving DecidableEq

/-- Empty persisted state: no bookings, no holds. -/
def emptyState : LedgerState :=
  { bookings := fun _ => none, holds := [] }

/-- Update of the bookings table at one bookingId. -/
def setBooking (s : LedgerState) (bookingId : Nat) (b : Booking) : LedgerState :=
  { s with bookings := fun j => if j = bookingId then some b else s.bookings j }

/-- Calendar nights of a stay: the half-open interval of day numbers from
checkIn (inclusive) to checkOut (exclusive). -/
def stayNights (checkIn checkOut : Nat) : List Nat :=
  List.range' checkIn (checkOut - checkIn)

/-- Whether some non-released hold row exists for the room-night. -/
def nightHeld (holds : List Hold) (roomId night : Nat) : Bool :=
  holds.any (fun h => h.roomId == roomId && h.night == night)

/-- Hold rows owned by a booking. -/
def holdRowsOf (holds : List Hold) (bookingId : Nat) : List Hold :=
  holds.filter (fun h => h.bookingId == bookingId)

/-- Modelled from the spec: ReservationLedger.tryAcquire of section 4.2.
All-or-nothing: when any night of the range already carries a hold it
creates nothing and reports the conflict as none; otherwise it inserts one
provisional row per night and returns the new table. -/
def tryAcquire (holds : List Hold) (roomId checkIn checkOut bookingId : Nat) :
    Option (List Hold) :=
  if (stayNights checkIn checkOut).any (fun n => nightHeld holds roomId n) then
    none
  else
    some (holds ++ (stayNights checkIn checkOut).map
      (fun n => { roomId := roomId, night := n, bookingId := bookingId,
                  permanent := false }))

/-- Modelled from the spec: ReservationLedger.confirm of section 4.2, sets
the booking hold rows permanent (heldUntil = null); idempotent. -/
def confirmHolds (holds : List Hold) (bookingId : Nat) : List Hold :=
  holds.map (fun h => if h.bookingId == bookingId then { h with permanent := true } else h)

/-- Modelled from the spec: ReservationLedger.release of section 4.2,
deletes the booking hold rows; idempotent, no-op when none exist. -/
def releaseHolds (holds : List Hold) (bookingId : Nat) : List Hold :=
  holds.filter (fun h => h.bookingId != bookingId)

/-- Modelled from the spec: PaymentOrderCoordinator.createOrder of section
4.3, with the idempotency key derived from bookingId, so the order id is a
deterministic function of the booking; the amount is passed through
verbatim. -/
def createOrder (bookingId amount : Nat) : OrderParams :=
  { gatewayKey := "rzp_live_key", amount := amount, currency := "INR",
    gatewayOrderId := bookingId, displayName := "Sojourn" }

/-- Modelled from the spec: BookingStateMachine.create of section 4.1.
Validates checkOut > checkIn and the capacity bound, requires a fresh
bookingId, and inserts a DRAFT booking with no ledger interaction; fails
with InvalidRequest otherwise. -/
def createBooking (s : LedgerState)
    (newId hotelId roomId checkIn checkOut guestCount totalAmount ownerId
     capacity now : Nat) : LedgerState × Except BookingError Unit :=
  if checkIn < checkOut ∧ guestCount ≤ capacity ∧ s.bookings newId = none then
    (setBooking s newId
      { hotelId := hotelId, roomId := roomId, checkIn := checkIn,
        checkOut := checkOut, guestCount := guestCount,
        totalAmount := totalAmount, ownerId := ownerId,
        status := BookingStatus.DRAFT, expiresAt := none,
        paymentOrderId := none, verifyAttemptCount := 0,
        refundEligible := false, createdAt := now },
     Except.ok ())
  else (s, Except.error BookingError.InvalidRequest)

/-- Modelled from the spec: BookingStateMachine.initiatePayment of section
4.1 (the InitiatePayment operation). Requires ownership and status DRAFT;
asks the ledger to atomically acquire the stay nights; on conflict leaves
the booking in DRAFT and fails with RoomUnavailable; on success creates the
order, moves to PENDING with an expiry and a reset verifyAttemptCount, and
returns the gateway order parameters. -/
def initiatePayment (cfg : Config) (s : LedgerState)
    (bookingId callerId now : Nat) : LedgerState × Except BookingError OrderParams :=
  match s.bookings bookingId with
  | none => (s, Except.error BookingError.NotFound)
  | some b =>
    if b.ownerId ≠ callerId then (s, Except.error BookingError.Forbidden)
    else if b.status ≠ BookingStatus.DRAFT then
      (s, Except.error BookingError.InvalidTransition)
    else
      match tryAcquire s.holds b.roomId b.checkIn b.checkOut bookingId with
      | none => (s, Except.error BookingError.RoomUnavailable)
      | some holds2 =>
        let order := createOrder bookingId b.totalAmount
        ({ bookings := fun j => if j = bookingId then
             some { b with
                    status := BookingStatus.PENDING,
                    expiresAt := some (now + cfg.holdTTL),
                    paymentOrderId := some order.gatewayOrderId,
                    verifyAttemptCount := 0 }
           else s.bookings j,
           holds := holds2 },
         Except.ok order)

/-- Modelled from the spec: BookingStateMachine.verifyPayment of section
4.1 (the VerifyPayment operation). The cryptographic check of section 4.4
is delegated to PaymentVerifier, which returns a boolean; that boolean is
the sigOk argument. An already CONFIRMED booking returns success with no
side effects (safe replay); a PENDING booking with a valid signature has
its holds made permanent and becomes CONFIRMED; on an invalid signature
verifyAttemptCount is incremented and, once it exceeds maxVerifyAttempts,
the booking becomes PAYMENT_FAILED and its holds are released, otherwise it
stays PENDING and the call fails with SignatureMismatch. -/
def verifyPayment (cfg : Config) (s : LedgerState)
    (bookingId callerId : Nat) (sigOk : Bool) : LedgerState × Except BookingError Unit :=
  match s.bookings bookingId with
  | none => (s, Except.error BookingError.NotFound)
  | some b =>
    if b.ownerId ≠ callerId then (s, Except.error BookingError.Forbidden)
    else if b.status = BookingStatus.CONFIRMED then (s, Except.ok ())
    else if b.status ≠ BookingStatus.PENDING then
      (s, Except.error BookingError.InvalidTransition)
    else if sigOk then
      ({ bookings := fun j => if j = bookingId then
           some { b with status := BookingStatus.CONFIRMED } else s.bookings j,
         holds := confirmHolds s.holds bookingId },
       Except.ok ())
    else if b.verifyAttemptCount + 1 > cfg.maxVerifyAttempts then
      ({ bookings := fun j => if j = bookingId then
           some { b with
                  status := BookingStatus.PAYMENT_FAILED,
                  verifyAttemptCount := b.verifyAttemptCount + 1 }
         else s.bookings j,
         holds := releaseHolds s.holds bookingId },
       Except.error BookingError.SignatureMismatch)
    else
      ({ bookings := fun j => if j = bookingId then
           some { b with verifyAttemptCount := b.verifyAttemptCount + 1 }
         else s.bookings j,
         holds := s.holds },
       Except.error BookingError.SignatureMismatch)

/-- Modelled from the spec: BookingStateMachine.cancel of section 4.1.
Requires ownership; idempotent on an already CANCELLED booking; from
PENDING it releases the holds, from CONFIRMED it releases the permanent
holds (section 3: CONFIRMED holds permanently until cancellation) and marks
the booking refund-eligible; any other status fails with
InvalidTransition. Returns the refundEligible flag. -/
def cancelBooking (s : LedgerState) (bookingId callerId : Nat) :
    LedgerState × Except BookingError Bool :=
  match s.bookings bookingId with
  | none => (s, Except.error BookingError.NotFound)
  | some b =>
    if b.ownerId ≠ callerId then (s, Except.error BookingError.Forbidden)
    else if b.status = BookingStatus.CANCELLED then (s, Except.ok b.refundEligible)
    else if b.status = BookingStatus.PENDING then
      ({ bookings := fun j => if j = bookingId then
           some { b with
                  status := BookingStatus.CANCELLED,
                  refundEligible := false }
         else s.bookings j,
         holds := releaseHolds s.holds bookingId },
       Except.ok false)
    else if b.status = BookingStatus.CONFIRMED then
      ({ bookings := fun j => if j = bookingId then
           some { b with
                  status := BookingStatus.CANCELLED,
                  refundEligible := true }
         else s.bookings j,
         holds := releaseHolds s.holds bookingId },
       Except.ok true)
    else (s, Except.error BookingError.InvalidTransition)

/-- Modelled from the spec: BookingStateMachine.expire of section 4.1,
invoked by the ExpiryReaper. Requires status DRAFT or PENDING and the
relevant TTL elapsed (expiresAt for PENDING, creation time plus the longer
draft TTL for DRAFT bookings without an expiresAt); releases any holds and
sets status EXPIRED. -/
def expireBooking (cfg : Config) (s : LedgerState) (bookingId now : Nat) :
    LedgerState × Except BookingError Unit :=
  match s.bookings bookingId with
  | none => (s, Except.error BookingError.NotFound)
  | some b =>
    let due : Bool := match b.expiresAt with
      | some t => decide (t < now)
      | none => decide (b.createdAt + cfg.draftTTL < now)
    if (b.status = BookingStatus.DRAFT ∨ b.status = BookingStatus.PENDING) ∧ due = true then
      ({ bookings := fun j => if j = bookingId then
           some { b with status := BookingStatus.EXPIRED } else s.bookings j,
         holds := releaseHolds s.holds bookingId },
       Except.ok ())
    else (s, Except.error BookingError.InvalidTransition)

/-- Reachable states of the booking core: everything obtainable from the
empty state by the five operations, with arbitrary arguments (failed calls
leave the state unchanged and are covered by the same constructors). -/
inductive Reachable (cfg : Config) : LedgerState → Prop where
  | init : Reachable cfg emptyState
  | createStep : ∀ s a b c d e f g h i j, Reachable cfg s →
      Reachable cfg (createBooking s a b c d e f g h i j).1
  | initiateStep : ∀ s bookingId callerId now, Reachable cfg s →
      Reachable cfg (initiatePayment cfg s bookingId callerId now).1
  | verifyStep : ∀ s bookingId callerId sigOk, Reachable cfg s →
      Reachable cfg (verifyPayment cfg s bookingId callerId sigOk).1
  | cancelStep : ∀ s bookingId callerId, Reachable cfg s →
      Reachable cfg (cancelBooking s bookingId callerId).1
  | expireStep : ∀ s bookingId now, Reachable cfg s →
      Reachable cfg (expireBooking cfg s bookingId now).1

/-- Sequential execution of a batch of InitiatePayment calls, given as
(bookingId, callerId) pairs: the serialization of concurrent callers, every
order of which is some such list. -/
def runInitiates (cfg : Config) (s : LedgerState) (now : Nat) :
    List (Nat × Nat) → LedgerState × List (Except BookingError OrderParams)
  | [] => (s, [])
  | c :: rest =>
    let step := initiatePayment cfg s c.1 c.2 now
    let restRun := runInitiates cfg step.1 now rest
    (restRun.1, step.2 :: restRun.2)

/-- Repeated VerifyPayment calls with an invalid signature: the state after
k calls and the list of the k results. -/
def runVerifyFails (cfg : Config) (s : LedgerState) (bookingId callerId : Nat) :
    Nat → LedgerState × List (Except BookingError Unit)
  | 0 => (s, [])
  | Nat.succ k =>
    let step := verifyPayment cfg s bookingId callerId false
    let restRun := runVerifyFails cfg step.1 bookingId callerId k
    (restRun.1, step.2 :: restRun.2)

/-- Hold-conservation invariant: a bookingId absent from the table owns no
hold rows; a PENDING or CONFIRMED booking owns one row per calendar night
of its stay, in order; a booking in any other status owns none. -/
def HoldInv (s : LedgerState) : Prop :=
  (∀ bookingId, s.bookings bookingId = none → holdRowsOf s.holds bookingId = []) ∧
  (∀ bookingId b, s.bookings bookingId = some b →
    ((b.status = BookingStatus.PENDING ∨ b.status = BookingStatus.CONFIRMED) →
      (holdRowsOf s.holds bookingId).map Hold.night = stayNights b.checkIn b.checkOut) ∧
    (b.status ≠ BookingStatus.PENDING → b.status ≠ BookingStatus.CONFIRMED →
      holdRowsOf s.holds bookingId = []))

/-- Whether an InitiatePayment result is a success. -/
def isOkResult : Except BookingError OrderParams → Bool
  | Except.ok _ => true
  | Except.error _ => false

/-- Every call of the batch refers to an existing booking owned by its
caller, in status DRAFT, on the given room. -/
def callsAreDraft (s : LedgerState) (roomId : Nat) (calls : List (Nat × Nat)) : Bool :=
  calls.all fun p =>
    match s.bookings p.1 with
    | some b => b.ownerId == p.2 && b.status == BookingStatus.DRAFT && b.roomId == roomId
    | none => false

/-- Every two calls of the batch have overlapping date ranges: the maximum
of the check-ins is before the minimum of the check-outs, so the stays
share at least one night. -/
def callsOverlap (s : LedgerState) (calls : List (Nat × Nat)) : Bool :=
  calls.all fun p => calls.all fun q =>
    match s.bookings p.1, s.bookings q.1 with
    | some bp, some bq =>
      decide (max bp.checkIn bq.checkIn < min bp.checkOut bq.checkOut)
    | _, _ => false

/-- Every night of every call of the batch is free in the starting state. -/
def callNightsFree (s : LedgerState) (calls : List (Nat × Nat)) : Bool :=
  calls.all fun p =>
    match s.bookings p.1 with
    | some b => (stayNights b.checkIn b.checkOut).all fun n =>
        !(nightHeld s.holds b.roomId n)
    | none => false

/- ---- concrete fixtures used by the witnesses ---- -/

/-- Example configuration: 15 time units of hold TTL, 24 of draft TTL,
at most 3 verification attempts. -/
def cfgEx : Config := { holdTTL := 15, draftTTL := 24, maxVerifyAttempts := 3 }

/-- State with one DRAFT booking (id 1, owner 7, room 200, nights 5 to 8,
total 39200). -/
def sDraft : LedgerState :=
  (createBooking emptyState 1 100 200 5 8 2 39200 7 4 0).1

/-- State with two DRAFT bookings on room 200 with overlapping stays:
booking 1 (owner 7, nights 5 to 8) and booking 2 (owner 8, nights 6 to 9). -/
def sTwoDrafts : LedgerState :=
  (createBooking sDraft 2 100 200 6 9 2 27000 8 4 0).1

/-- State where booking 1 moved to PENDING and holds nights 5, 6 and 7 of
room 200. -/
def sPending : LedgerState :=
  (initiatePayment cfgEx sDraft 1 7 50).1

/-- State with booking 1 PENDING (holding its nights) and booking 2 still
DRAFT on an overlapping range of the same room. -/
def sContested : LedgerState :=
  (createBooking sPending 2 100 200 6 9 2 27000 8 4 0).1

/-- The booking record created for booking 1 while it is DRAFT. -/
def bookingDraftEx : Booking :=
  { hotelId := 100, roomId := 200, checkIn := 5, checkOut := 8,
    guestCount := 2, totalAmount := 39200, ownerId := 7,
    status := BookingStatus.DRAFT, expiresAt := none, paymentOrderId := none,
    verifyAttemptCount := 0, refundEligible := false, createdAt := 0 }

/-- The booking record of booking 1 once PENDING. -/
def bookingPendingEx : Booking :=
  { bookingDraftEx with
    status := BookingStatus.PENDING, expiresAt := some 65,
    paymentOrderId := some 1 }

/-- Example backend payment payload with amount 39200 and only the
snake-case order id set. -/
def pdEx : PaymentBackendData :=
  { key := "rzp_live_key", amount := 39200, currency := "INR",
    order_id := "order_ex_1", orderId := none, name := none,
    description := none, image := none, prefill := none, theme := none,
    retry := none, timeout := none, remember_customer := none,
    readonly := none, hidden := none, notes := [] }

/-- Example form data: two named guests, the first primary. -/
def fdEx : BookingFormData :=
  { userDetails := { firstName := "Asha", lastName := "Rao" },
    guestDetails :=
      [{ blankGuest true with firstName := "Asha", lastName := "Rao" },
       { blankGuest false with firstName := "Ira", lastName := "Rao" }] }

/-- Object with the key a bound to undefined. -/
def objUndefA : JSValue :=
  JSValue.obj (JSFields.cons "a" JSValue.undef JSFields.nil)

/-- Object binding a to an object binding b to the number 7. -/
def objNested : JSValue :=
  JSValue.obj (JSFields.cons "a"
    (JSValue.obj (JSFields.cons "b" (JSValue.num 7) JSFields.nil))
    JSFields.nil)

/-- Empty object literal. -/
def objEmpty : JSValue := JSValue.obj JSFields.nil

/-- Object binding a to the string hi. -/
def objStrHi : JSValue :=
  JSValue.obj (JSFields.cons "a" (JSValue.str "hi") JSFields.nil)

/-- Example prototype environment realizing the pieces of the standard
prototype chain the divergence witnesses touch: every string has its
length, and plain objects inherit the toString function from
Object.prototype. -/
def jsEnvEx : JSEnv :=
  { inherited := fun v key =>
      match v, key with
      | JSValue.str s, "length" => some (JSValue.num (s.length : Int))
      | JSValue.obj _, "toString" => some (JSValue.fn "toString")
      | _, _ => none }

/- ===================== Part 3: properties ===================== -/

/- ---- helper lemmas for the guest-list invariant ---- -/

theorem countPrimaryGuests_nil : countPrimaryGuests [] = 0 := rfl

theorem countPrimaryGuests_cons (g : Guest) (gl : List Guest) :
    countPrimaryGuests (g :: gl) =
      (if g.isPrimaryGuest then 1 else 0) + countPrimaryGuests gl := by
  unfold countPrimaryGuests
  rw [List.filter_cons]
  by_cases h : g.isPrimaryGuest <;> simp [h, Nat.add_comm]

theorem countPrimaryGuests_replicate_false (m : Nat) :
    countPrimaryGuests (List.replicate m (blankGuest false)) = 0 := by
  induction m with
  | zero => rfl
  | succ m ih =>
    rw [List.replicate_succ, countPrimaryGuests_cons]
    simpa [blankGuest] using ih

theorem countPrimaryGuests_mapIdx_zero (gl : List Guest) (f : Nat → Guest → Guest)
    (hf : ∀ i g, (f i g).isPrimaryGuest = false) :
    countPrimaryGuests (List.mapIdx f gl) = 0 := by
  induction gl generalizing f with
  | nil => rfl
  | cons g gl ih =>
    rw [List.mapIdx_cons, countPrimaryGuests_cons, hf 0 g]
    simpa using ih (fun i => f (i + 1)) (fun i g2 => hf (i + 1) g2)

theorem countPrimaryGuests_mapIdx_eq (gl : List Guest) (f : Nat → Guest → Guest)
    (k : Nat) (hf : ∀ i g, (f i g).isPrimaryGuest = (i == k)) :
    countPrimaryGuests (List.mapIdx f gl) = if k < gl.length then 1 else 0 := by
  induction gl generalizing f k with
  | nil => simp [countPrimaryGuests_nil]
  | cons g gl ih =>
    rw [List.mapIdx_cons, countPrimaryGuests_cons, hf 0 g]
    cases k with
    | zero =>
      rw [countPrimaryGuests_mapIdx_zero gl (fun i => f (i + 1))
        (fun i g2 => by simpa using hf (i + 1) g2)]
      simp
    | succ j =>
      have ht := ih (fun i => f (i + 1)) j
        (fun i g2 => by simpa [Nat.succ_lt_succ_iff] using hf (i + 1) g2)
      rw [ht]
      by_cases hj : j < gl.length <;> simp [hj, Nat.succ_lt_succ_iff]

/- ---- helper lemma for the night count ---- -/

theorem jsMathCeilDiv_mul (k d : Int) (hd : d ≠ 0) : jsMathCeilDiv (k * d) d = k := by
  unfold jsMathCeilDiv
  rw [show -(k * d) = (-k) * d by ring]
  show -((-k) * d / d) = k
  rw [Int.mul_ediv_cancel _ hd, neg_neg]

/- ---- claims about the client code ---- -/

/-- Claim C6: formatPaymentOptions passes the gateway order parameters to
the caller verbatim: key, amount (in particular 39200 stays exactly 39200),
currency, the order id (the camel-case orderId when the backend set it,
otherwise order_id unchanged), and all display metadata blocks unchanged,
with name and description kept whenever present and nonempty; and the
order created by the coordinator carries the requested amount verbatim. -/
theorem claim6_payment_options_verbatim (pd : PaymentBackendData) (bid : String) :
    (formatPaymentOptions pd bid).key = pd.key ∧
    (formatPaymentOptions pd bid).amount = pd.amount ∧
    (formatPaymentOptions pd bid).currency = pd.currency ∧
    (pd.orderId = none → (formatPaymentOptions pd bid).order_id = pd.order_id) ∧
    (∀ oid, pd.orderId = some oid → oid ≠ "" →
      (formatPaymentOptions pd bid).order_id = oid) ∧
    (∀ n, pd.name = some n → n ≠ "" → (formatPaymentOptions pd bid).name = n) ∧
    (∀ d, pd.description = some d → d ≠ "" →
      (formatPaymentOptions pd bid).description = d) ∧
    (formatPaymentOptions pd bid).image = pd.image ∧
    (formatPaymentOptions pd bid).prefill = pd.prefill ∧
    (formatPaymentOptions pd bid).theme = pd.theme ∧
    (formatPaymentOptions pd bid).retry = pd.retry ∧
    (formatPaymentOptions pd bid).timeout = pd.timeout ∧
    (formatPaymentOptions pd bid).remember_customer = pd.remember_customer ∧
    (formatPaymentOptions pd bid).readonly = pd.readonly ∧
    (formatPaymentOptions pd bid).hidden = pd.hidden ∧
    (formatPaymentOptions pd bid).notes = pd.notes ∧
    (∀ bookingId amount, (createOrder bookingId amount).amount = amount) := by
  refine ⟨rfl, rfl, rfl, ?_, ?_, ?_, ?_, rfl, rfl, rfl, rfl, rfl, rfl, rfl, rfl,
    rfl, fun _ _ => rfl⟩
  · intro h; simp [formatPaymentOptions, jsOrString, h]
  · intro oid h hne; simp [formatPaymentOptions, jsOrString, h, hne]
  · intro n h hne; simp [formatPaymentOptions, jsOrString, h, hne]
  · intro d h hne; simp [formatPaymentOptions, jsOrString, h, hne]

theorem claim6_witness :
    (formatPaymentOptions pdEx "b1").amount = 39200 ∧
    (formatPaymentOptions pdEx "b1").order_id = "order_ex_1" ∧
    (createOrder 1 39200).amount = 39200 := by
  obtain ⟨-, ha, -, hoid, -, -, -, -, -, -, -, -, -, -, -, -, hco⟩ :=
    claim6_payment_options_verbatim pdEx "b1"
  exact ⟨ha, hoid rfl, hco 1 39200⟩

/-- Claim C7 counterexample: the status vocabulary the client code declares
is not the set the claim states: COMPLETED is declared by both config.ts
and the bookings page interface but is absent from the claimed six, while
EXPIRED and PAYMENT_FAILED are claimed but never declared by the code. -/
theorem claim7_status_counterexample :
    "COMPLETED" ∈ configStatusKeys ∧
    "COMPLETED" ∈ clientBookingStatusValues ∧
    "COMPLETED" ∉ specStatusValues ∧
    "EXPIRED" ∈ specStatusValues ∧
    "EXPIRED" ∉ configStatusKeys ∧
    "EXPIRED" ∉ clientBookingStatusValues ∧
    "PAYMENT_FAILED" ∈ specStatusValues ∧
    "PAYMENT_FAILED" ∉ configStatusKeys ∧
    "PAYMENT_FAILED" ∉ clientBookingStatusValues := by decide

/-- Claim C7 (amended): the booking statuses the client code declares are
exactly DRAFT, PENDING, CONFIRMED, CANCELLED and COMPLETED in config.ts,
and exactly PENDING, CONFIRMED, CANCELLED and COMPLETED in the bookings
page status union; EXPIRED and PAYMENT_FAILED appear in neither. -/
theorem claim7_status_set :
    configStatusKeys = ["DRAFT", "PENDING", "CONFIRMED", "CANCELLED", "COMPLETED"] ∧
    clientBookingStatusValues = ["PENDING", "CONFIRMED", "CANCELLED", "COMPLETED"] ∧
    "EXPIRED" ∉ configStatusKeys ∧ "PAYMENT_FAILED" ∉ configStatusKeys ∧
    "EXPIRED" ∉ clientBookingStatusValues ∧
    "PAYMENT_FAILED" ∉ clientBookingStatusValues := by decide

/-- Claim C8: for calendar-date inputs with checkIn before checkOut, the
night count the client computes with Math.ceil over millisecond arithmetic
equals the exact day difference checkOut minus checkIn. -/
theorem claim8_night_count (checkIn checkOut : Nat) (h : checkIn < checkOut) :
    calculateNights checkIn checkOut = (checkOut : Int) - (checkIn : Int) := by
  unfold calculateNights msOfDate
  rw [show (checkOut : Int) * dayMs - (checkIn : Int) * dayMs
      = ((checkOut : Int) - (checkIn : Int)) * dayMs by ring]
  exact jsMathCeilDiv_mul _ _ (by norm_num [dayMs])

theorem claim8_witness :
    5 < 8 ∧ calculateNights 5 8 = (8 : Int) - (5 : Int) :=
  ⟨by decide, claim8_night_count 5 8 (by decide)⟩

/-- Claim C9: the guest list starts with exactly one primary guest, marking
any in-range guest primary leaves exactly one primary, and every payload
createBooking actually submits (validateForm gate) has exactly one primary
guest. -/
theorem claim9_single_primary_guest :
    (∀ guests : Nat, countPrimaryGuests (setupAdditionalGuests guests) = 1) ∧
    (∀ (gl : List Guest) (i : Nat), i < gl.length →
      countPrimaryGuests (setPrimaryGuest gl i) = 1) ∧
    (∀ fd p, createBookingPayload fd = some p →
      countPrimaryGuests p.guestDetails = 1) := by
  refine ⟨?_, ?_, ?_⟩
  · intro guests
    unfold setupAdditionalGuests
    rw [countPrimaryGuests_cons, countPrimaryGuests_replicate_false]
    simp [blankGuest]
  · intro gl i hi
    unfold setPrimaryGuest
    rw [countPrimaryGuests_mapIdx_eq gl _ i (fun j g => rfl)]
    simp [hi]
  · intro fd p hp
    unfold createBookingPayload at hp
    by_cases hv : validateForm fd = true
    · rw [if_pos hv] at hp
      obtain rfl : fd = p := by simpa using hp
      unfold validateForm at hv
      split_ifs at hv with h1 h2 h3
      simpa using h3
    · rw [if_neg hv] at hp
      exact absurd hp (by simp)

theorem claim9_witness :
    countPrimaryGuests (setupAdditionalGuests 3) = 1 ∧
    (1 < ([blankGuest true, blankGuest false] : List Guest).length ∧
      countPrimaryGuests (setPrimaryGuest [blankGuest true, blankGuest false] 1) = 1) ∧
    countPrimaryGuests fdEx.guestDetails = 1 :=
  ⟨claim9_single_primary_guest.1 3,
   ⟨by decide,
    claim9_single_primary_guest.2.1 [blankGuest true, blankGuest false] 1 (by decide)⟩,
   claim9_single_primary_guest.2.2 fdEx fdEx rfl⟩

/-- Claim C10 counterexample: the two safeGet implementations disagree on
three concrete inputs. On the object binding a to undefined, with path a
and default 5, the typed implementation returns undefined while the legacy
reduce returns the default. On the object binding a to the string hi, with
path a.length and default null, the typed implementation returns null
(strings are not objects) while the legacy reduce reads the boxed length 2.
On the empty object, with path toString and default null, the typed
hasOwnProperty check returns null while the legacy reduce returns the
toString function inherited from Object.prototype. -/
theorem claim10_safe_get_counterexample :
    (safeGetTyped objUndefA ["a"] (JSValue.num 5) = JSValue.undef ∧
     safeGetLegacy jsEnvEx objUndefA ["a"] (JSValue.num 5) = JSValue.num 5 ∧
     safeGetTyped objUndefA ["a"] (JSValue.num 5)
       ≠ safeGetLegacy jsEnvEx objUndefA ["a"] (JSValue.num 5)) ∧
    (safeGetTyped objStrHi ["a", "length"] JSValue.null = JSValue.null ∧
     safeGetLegacy jsEnvEx objStrHi ["a", "length"] JSValue.null = JSValue.num 2 ∧
     safeGetTyped objStrHi ["a", "length"] JSValue.null
       ≠ safeGetLegacy jsEnvEx objStrHi ["a", "length"] JSValue.null) ∧
    (safeGetTyped objEmpty ["toString"] JSValue.null = JSValue.null ∧
     safeGetLegacy jsEnvEx objEmpty ["toString"] JSValue.null
       = JSValue.fn "toString" ∧
     safeGetTyped objEmpty ["toString"] JSValue.null
       ≠ safeGetLegacy jsEnvEx objEmpty ["toString"] JSValue.null) := by
  refine ⟨⟨rfl, rfl, fun h => ?_⟩, ⟨rfl, rfl, fun h => ?_⟩, ⟨rfl, rfl, fun h => ?_⟩⟩
  · rw [show safeGetTyped objUndefA ["a"] (JSValue.num 5) = JSValue.undef from rfl,
      show safeGetLegacy jsEnvEx objUndefA ["a"] (JSValue.num 5) = JSValue.num 5
        from rfl] at h
    exact JSValue.noConfusion h
  · rw [show safeGetTyped objStrHi ["a", "length"] JSValue.null = JSValue.null
        from rfl,
      show safeGetLegacy jsEnvEx objStrHi ["a", "length"] JSValue.null
        = JSValue.num 2 from rfl] at h
    exact JSValue.noConfusion h
  · rw [show safeGetTyped objEmpty ["toString"] JSValue.null = JSValue.null
        from rfl,
      show safeGetLegacy jsEnvEx objEmpty ["toString"] JSValue.null
        = JSValue.fn "toString" from rfl] at h
    exact JSValue.noConfusion h

/-- Claim C10 (amended): whenever the typed traversal succeeds on own
fields alone — every path key is an own field of a plain object and no
value read along the path is undefined — the two implementations return
the same result, for every default value and every prototype environment;
outside that regime they can disagree. -/
theorem claim10_safe_get_equiv (env : JSEnv) (o : JSValue)
    (parts : List String) (dflt : JSValue)
    (h : ownChainDefined o parts = true) :
    safeGetTyped o parts dflt = safeGetLegacy env o parts dflt := by
  induction parts generalizing o with
  | nil => rfl
  | cons key rest ih =>
    cases o with
    | obj fields =>
      rcases hl : lookupField fields key with _ | v
      · simp [ownChainDefined, hl] at h
      · have h2 : (!(isUndef v) && ownChainDefined v rest) = true := by
          simpa [ownChainDefined, hl] using h
        rw [Bool.and_eq_true] at h2
        have hstep : safeGetLegacyStep env dflt (JSValue.obj fields) key = v := by
          unfold safeGetLegacyStep jsGetField
          dsimp only
          rw [hl]
          simp [jsTruthy, h2.1]
        show safeGetTyped (JSValue.obj fields) (key :: rest) dflt
          = List.foldl (safeGetLegacyStep env dflt) (JSValue.obj fields)
              (key :: rest)
        rw [List.foldl_cons, hstep,
          show safeGetTyped (JSValue.obj fields) (key :: rest) dflt
            = safeGetTyped v rest dflt by simp [safeGetTyped, hl]]
        exact ih v h2.2
    | undef => simp [ownChainDefined] at h
    | null => simp [ownChainDefined] at h
    | bool b => simp [ownChainDefined] at h
    | num n => simp [ownChainDefined] at h
    | str s => simp [ownChainDefined] at h
    | fn name => simp [ownChainDefined] at h

theorem claim10_witness :
    ownChainDefined objNested ["a", "b"] = true ∧
    safeGetTyped objNested ["a", "b"] (JSValue.num 9)
      = safeGetLegacy jsEnvEx objNested ["a", "b"] (JSValue.num 9) :=
  ⟨rfl, claim10_safe_get_equiv jsEnvEx objNested ["a", "b"] (JSValue.num 9) rfl⟩

/- ---- helper lemmas for the reservation ledger ---- -/

theorem holdRowsOf_append (l1 l2 : List Hold) (id : Nat) :
    holdRowsOf (l1 ++ l2) id = holdRowsOf l1 id ++ holdRowsOf l2 id :=
  List.filter_append l1 l2

theorem holdRowsOf_newRows_self (nightList : List Nat) (r id : Nat) :
    holdRowsOf (nightList.map
        (fun n => { roomId := r, night := n, bookingId := id, permanent := false })) id
      = nightList.map
        (fun n => ({ roomId := r, night := n, bookingId := id, permanent := false } : Hold)) := by
  induction nightList with
  | nil => rfl
  | cons n ns ih =>
    simp only [List.map_cons]
    unfold holdRowsOf at ih ⊢
    rw [List.filter_cons]
    simp [ih]

theorem holdRowsOf_newRows_other (nightList : List Nat) (r id j : Nat) (hne : j ≠ id) :
    holdRowsOf (nightList.map
        (fun n => { roomId := r, night := n, bookingId := id, permanent := false })) j
      = [] := by
  induction nightList with
  | nil => rfl
  | cons n ns ih =>
    simp only [List.map_cons]
    unfold holdRowsOf at ih ⊢
    rw [List.filter_cons]
    simp [Ne.symm hne, ih]

theorem map_night_newRows (nightList : List Nat) (r id : Nat) :
    (nightList.map
        (fun n => ({ roomId := r, night := n, bookingId := id, permanent := false } : Hold))).map
      Hold.night = nightList := by
  induction nightList with
  | nil => rfl
  | cons n ns ih => simp only [List.map_cons, List.map_map] at ih ⊢; simp [ih]


theorem holdRowsOf_confirm_nights (l : List Hold) (id j : Nat) :
    (holdRowsOf (confirmHolds l id) j).map Hold.night
      = (holdRowsOf l j).map Hold.night := by
  induction l with
  | nil => rfl
  | cons hd l ih =>
    unfold confirmHolds holdRowsOf at ih ⊢
    rw [List.map_cons, List.filter_cons, List.filter_cons]
    by_cases hb : (hd.bookingId == id) = true
    · rw [if_pos hb]
      dsimp only
      by_cases hj : (hd.bookingId == j) = true
      · rw [if_pos hj, if_pos hj, List.map_cons, List.map_cons, ih]
      · rw [if_neg hj, if_neg hj, ih]
    · rw [if_neg hb]
      by_cases hj : (hd.bookingId == j) = true
      · rw [if_pos hj, if_pos hj, List.map_cons, List.map_cons, ih]
      · rw [if_neg hj, if_neg hj, ih]

theorem holdRowsOf_confirm_nil (l : List Hold) (id j : Nat)
    (h : holdRowsOf l j = []) : holdRowsOf (confirmHolds l id) j = [] := by
  induction l with
  | nil => rfl
  | cons hd l ih =>
    unfold holdRowsOf at h
    rw [List.filter_cons] at h
    by_cases hj : (hd.bookingId == j) = true
    · rw [if_pos hj] at h
      exact absurd h (List.cons_ne_nil _ _)
    · rw [if_neg hj] at h
      unfold confirmHolds holdRowsOf at ih ⊢
      rw [List.map_cons, List.filter_cons]
      by_cases hb : (hd.bookingId == id) = true
      · rw [if_pos hb]
        dsimp only
        rw [if_neg hj]
        exact ih h
      · rw [if_neg hb, if_neg hj]
        exact ih h

theorem holdRowsOf_release_self (l : List Hold) (id : Nat) :
    holdRowsOf (releaseHolds l id) id = [] := by
  induction l with
  | nil => rfl
  | cons hd l ih =>
    unfold releaseHolds holdRowsOf at ih ⊢
    rw [List.filter_cons]
    by_cases hb : (hd.bookingId != id) = true
    · rw [if_pos hb, List.filter_cons]
      have hfalse : (hd.bookingId == id) = false := by
        rw [beq_eq_false_iff_ne]
        exact bne_iff_ne.mp hb
      simp [hfalse, ih]
    · rw [if_neg hb]
      exact ih

theorem holdRowsOf_release_other (l : List Hold) (id j : Nat) (hne : j ≠ id) :
    holdRowsOf (releaseHolds l id) j = holdRowsOf l j := by
  induction l with
  | nil => rfl
  | cons hd l ih =>
    unfold releaseHolds holdRowsOf at ih ⊢
    rw [List.filter_cons]
    by_cases hb : (hd.bookingId != id) = true
    · rw [if_pos hb, List.filter_cons, List.filter_cons]
      by_cases hj : (hd.bookingId == j) = true
      · rw [if_pos hj, if_pos hj, ih]
      · rw [if_neg hj, if_neg hj, ih]
    · rw [if_neg hb, List.filter_cons]
      have hbP : hd.bookingId = id := by
        have h2 : ¬ hd.bookingId ≠ id := fun hne2 => hb (bne_iff_ne.mpr hne2)
        exact not_not.mp h2
      have hj : (hd.bookingId == j) = false := by
        rw [beq_eq_false_iff_ne, hbP]
        exact Ne.symm hne
      rw [if_neg (by simp [hj])]
      exact ih

theorem nightHeld_append (l1 l2 : List Hold) (r n : Nat) :
    nightHeld (l1 ++ l2) r n = (nightHeld l1 r n || nightHeld l2 r n) :=
  List.any_append

theorem nightHeld_newRows (nightList : List Nat) (r id m : Nat) (hm : m ∈ nightList) :
    nightHeld (nightList.map
        (fun n => { roomId := r, night := n, bookingId := id, permanent := false })) r m
      = true := by
  unfold nightHeld
  rw [List.any_eq_true]
  exact ⟨{ roomId := r, night := m, bookingId := id, permanent := false },
    List.mem_map_of_mem _ hm, by simp⟩

theorem nightHeld_release_false (l : List Hold) (id r n : Nat)
    (hown : ∀ h ∈ l, h.roomId = r → h.night = n → h.bookingId = id) :
    nightHeld (releaseHolds l id) r n = false := by
  unfold nightHeld releaseHolds
  rw [List.any_eq_false]
  intro h hmem
  rw [List.mem_filter] at hmem
  intro hp
  rw [Bool.and_eq_true, beq_iff_eq, beq_iff_eq] at hp
  have hid := hown h hmem.1 hp.1 hp.2
  have := hmem.2
  rw [hid] at this
  simp at this

theorem tryAcquire_none_of_conflict (holds : List Hold) (r ci co id : Nat)
    (hc : ∃ n ∈ stayNights ci co, nightHeld holds r n = true) :
    tryAcquire holds r ci co id = none := by
  unfold tryAcquire
  rw [if_pos]
  rw [List.any_eq_true]
  obtain ⟨n, hn, hh⟩ := hc
  exact ⟨n, hn, hh⟩

theorem tryAcquire_some_of_free (holds : List Hold) (r ci co id : Nat)
    (hf : ∀ n ∈ stayNights ci co, nightHeld holds r n = false) :
    tryAcquire holds r ci co id
      = some (holds ++ (stayNights ci co).map
          (fun n => { roomId := r, night := n, bookingId := id, permanent := false })) := by
  unfold tryAcquire
  rw [if_neg]
  rw [List.any_eq_true]
  rintro ⟨n, hn, hh⟩
  rw [hf n hn] at hh
  exact Bool.false_ne_true hh

theorem length_stayNights (ci co : Nat) : (stayNights ci co).length = co - ci := by
  unfold stayNights
  simp

/- ---- preservation templates for the hold-conservation invariant ---- -/

theorem holdInv_insert_new (s : LedgerState) (newId : Nat) (b2 : Booking)
    (h : HoldInv s) (hfresh : s.bookings newId = none)
    (hst1 : b2.status ≠ BookingStatus.PENDING)
    (hst2 : b2.status ≠ BookingStatus.CONFIRMED) :
    HoldInv (setBooking s newId b2) := by
  obtain ⟨h1, h2⟩ := h
  constructor
  · intro id hid
    rw [show (setBooking s newId b2).bookings id
        = if id = newId then some b2 else s.bookings id from rfl] at hid
    by_cases hj : id = newId
    · rw [if_pos hj] at hid
      exact absurd hid (by simp)
    · rw [if_neg hj] at hid
      exact h1 id hid
  · intro id b hb
    rw [show (setBooking s newId b2).bookings id
        = if id = newId then some b2 else s.bookings id from rfl] at hb
    by_cases hj : id = newId
    · rw [if_pos hj] at hb
      have hbv : b2 = b := by injection hb
      subst hbv
      subst hj
      constructor
      · intro hst
        rcases hst with hst | hst
        · exact absurd hst hst1
        · exact absurd hst hst2
      · intro _ _
        exact h1 id hfresh
    · rw [if_neg hj] at hb
      exact h2 id b hb

theorem holdInv_release_update (s : LedgerState) (bookingId : Nat) (b2 : Booking)
    (h : HoldInv s)
    (hst1 : b2.status ≠ BookingStatus.PENDING)
    (hst2 : b2.status ≠ BookingStatus.CONFIRMED) :
    HoldInv { bookings := fun j => if j = bookingId then some b2 else s.bookings j,
              holds := releaseHolds s.holds bookingId } := by
  obtain ⟨h1, h2⟩ := h
  constructor
  · intro id hid
    dsimp only at hid ⊢
    by_cases hj : id = bookingId
    · rw [if_pos hj] at hid
      exact absurd hid (by simp)
    · rw [if_neg hj] at hid
      rw [holdRowsOf_release_other s.holds bookingId id hj]
      exact h1 id hid
  · intro id b hb
    dsimp only at hb ⊢
    by_cases hj : id = bookingId
    · rw [if_pos hj] at hb
      have hbv : b2 = b := by injection hb
      subst hbv
      subst hj
      constructor
      · intro hst
        rcases hst with hst | hst
        · exact absurd hst hst1
        · exact absurd hst hst2
      · intro _ _
        exact holdRowsOf_release_self s.holds id
    · rw [if_neg hj] at hb
      have := h2 id b hb
      rw [holdRowsOf_release_other s.holds bookingId id hj]
      exact this

theorem holdInv_keep_update (s : LedgerState) (bookingId : Nat) (b b2 : Booking)
    (h : HoldInv s) (hb : s.bookings bookingId = some b)
    (hst : b2.status = b.status) (hci : b2.checkIn = b.checkIn)
    (hco : b2.checkOut = b.checkOut) :
    HoldInv { bookings := fun j => if j = bookingId then some b2 else s.bookings j,
              holds := s.holds } := by
  obtain ⟨h1, h2⟩ := h
  constructor
  · intro id hid
    dsimp only at hid ⊢
    by_cases hj : id = bookingId
    · rw [if_pos hj] at hid
      exact absurd hid (by simp)
    · rw [if_neg hj] at hid
      exact h1 id hid
  · intro id b3 hb3
    dsimp only at hb3 ⊢
    by_cases hj : id = bookingId
    · rw [if_pos hj] at hb3
      have hbv : b2 = b3 := by injection hb3
      subst hbv
      subst hj
      have := h2 id b hb
      rw [hst, hci, hco]
      exact this
    · rw [if_neg hj] at hb3
      exact h2 id b3 hb3

theorem holdInv_confirm_update (s : LedgerState) (bookingId : Nat) (b b2 : Booking)
    (h : HoldInv s) (hb : s.bookings bookingId = some b)
    (hbst : b.status = BookingStatus.PENDING)
    (hst : b2.status = BookingStatus.CONFIRMED)
    (hci : b2.checkIn = b.checkIn) (hco : b2.checkOut = b.checkOut) :
    HoldInv { bookings := fun j => if j = bookingId then some b2 else s.bookings j,
              holds := confirmHolds s.holds bookingId } := by
  obtain ⟨h1, h2⟩ := h
  constructor
  · intro id hid
    dsimp only at hid ⊢
    by_cases hj : id = bookingId
    · rw [if_pos hj] at hid
      exact absurd hid (by simp)
    · rw [if_neg hj] at hid
      exact holdRowsOf_confirm_nil s.holds bookingId id (h1 id hid)
  · intro id b3 hb3
    dsimp only at hb3 ⊢
    by_cases hj : id = bookingId
    · rw [if_pos hj] at hb3
      have hbv : b2 = b3 := by injection hb3
      subst hbv
      subst hj
      constructor
      · intro _
        rw [holdRowsOf_confirm_nights, hci, hco]
        exact (h2 id b hb).1 (Or.inl hbst)
      · intro _ hnc
        exact absurd hst hnc
    · rw [if_neg hj] at hb3
      constructor
      · intro hpc
        rw [holdRowsOf_confirm_nights]
        exact (h2 id b3 hb3).1 hpc
      · intro hnp hnc
        exact holdRowsOf_confirm_nil s.holds bookingId id ((h2 id b3 hb3).2 hnp hnc)

theorem holdInv_acquire_update (s : LedgerState) (bookingId : Nat) (b b2 : Booking)
    (h : HoldInv s) (hb : s.bookings bookingId = some b)
    (hbst1 : b.status ≠ BookingStatus.PENDING)
    (hbst2 : b.status ≠ BookingStatus.CONFIRMED)
    (hst : b2.status = BookingStatus.PENDING)
    (hci : b2.checkIn = b.checkIn) (hco : b2.checkOut = b.checkOut) :
    HoldInv { bookings := fun j => if j = bookingId then some b2 else s.bookings j,
              holds := s.holds ++ (stayNights b.checkIn b.checkOut).map
                (fun n => { roomId := b.roomId, night := n, bookingId := bookingId,
                            permanent := false }) } := by
  obtain ⟨h1, h2⟩ := h
  have hself : holdRowsOf s.holds bookingId = [] := (h2 bookingId b hb).2 hbst1 hbst2
  constructor
  · intro id hid
    dsimp only at hid ⊢
    by_cases hj : id = bookingId
    · rw [if_pos hj] at hid
      exact absurd hid (by simp)
    · rw [if_neg hj] at hid
      rw [holdRowsOf_append, holdRowsOf_newRows_other _ _ _ _ hj, List.append_nil]
      exact h1 id hid
  · intro id b3 hb3
    dsimp only at hb3 ⊢
    by_cases hj : id = bookingId
    · rw [if_pos hj] at hb3
      have hbv : b2 = b3 := by injection hb3
      subst hbv
      subst hj
      constructor
      · intro _
        rw [holdRowsOf_append, hself, List.nil_append, holdRowsOf_newRows_self,
          map_night_newRows, hci, hco]
      · intro hnp _
        exact absurd hst hnp
    · rw [if_neg hj] at hb3
      rw [holdRowsOf_append, holdRowsOf_newRows_other _ _ _ _ hj, List.append_nil]
      exact h2 id b3 hb3

theorem holdInv_createBooking (s : LedgerState)
    (newId hotelId roomId checkIn checkOut guestCount totalAmount ownerId
     capacity now : Nat) (h : HoldInv s) :
    HoldInv (createBooking s newId hotelId roomId checkIn checkOut guestCount
      totalAmount ownerId capacity now).1 := by
  unfold createBooking
  by_cases hc : checkIn < checkOut ∧ guestCount ≤ capacity ∧ s.bookings newId = none
  · rw [if_pos hc]
    exact holdInv_insert_new s newId _ h hc.2.2 (by simp) (by simp)
  · rw [if_neg hc]
    exact h

theorem holdInv_initiatePayment (cfg : Config) (s : LedgerState)
    (bookingId callerId now : Nat) (h : HoldInv s) :
    HoldInv (initiatePayment cfg s bookingId callerId now).1 := by
  unfold initiatePayment
  rcases hbk : s.bookings bookingId with _ | b
  · exact h
  · dsimp only
    by_cases how : b.ownerId ≠ callerId
    · rw [if_pos how]
      exact h
    · rw [if_neg how]
      by_cases hst : b.status ≠ BookingStatus.DRAFT
      · rw [if_pos hst]
        exact h
      · rw [if_neg hst]
        have hdraft : b.status = BookingStatus.DRAFT := not_not.mp hst
        rcases hta : tryAcquire s.holds b.roomId b.checkIn b.checkOut bookingId
          with _ | holds2
        · exact h
        · dsimp only
          unfold tryAcquire at hta
          by_cases hconf :
              ((stayNights b.checkIn b.checkOut).any
                (fun n => nightHeld s.holds b.roomId n)) = true
          · rw [if_pos hconf] at hta
            exact absurd hta (by simp)
          · rw [if_neg hconf] at hta
            have hv : s.holds ++ (stayNights b.checkIn b.checkOut).map
                (fun n => { roomId := b.roomId, night := n, bookingId := bookingId,
                            permanent := false }) = holds2 := by
              injection hta
            rw [← hv]
            exact holdInv_acquire_update s bookingId b _ h hbk
              (by rw [hdraft]; simp) (by rw [hdraft]; simp) rfl rfl rfl

theorem holdInv_verifyPayment (cfg : Config) (s : LedgerState)
    (bookingId callerId : Nat) (sigOk : Bool) (h : HoldInv s) :
    HoldInv (verifyPayment cfg s bookingId callerId sigOk).1 := by
  unfold verifyPayment
  rcases hbk : s.bookings bookingId with _ | b
  · exact h
  · dsimp only
    by_cases how : b.ownerId ≠ callerId
    · rw [if_pos how]
      exact h
    · rw [if_neg how]
      by_cases hcf : b.status = BookingStatus.CONFIRMED
      · rw [if_pos hcf]
        exact h
      · rw [if_neg hcf]
        by_cases hnp : b.status ≠ BookingStatus.PENDING
        · rw [if_pos hnp]
          exact h
        · rw [if_neg hnp]
          have hpend : b.status = BookingStatus.PENDING := not_not.mp hnp
          by_cases hs : sigOk = true
          · rw [if_pos hs]
            exact holdInv_confirm_update s bookingId b _ h hbk hpend rfl rfl rfl
          · rw [if_neg hs]
            by_cases hmax : b.verifyAttemptCount + 1 > cfg.maxVerifyAttempts
            · rw [if_pos hmax]
              exact holdInv_release_update s bookingId _ h (by simp) (by simp)
            · rw [if_neg hmax]
              exact holdInv_keep_update s bookingId b _ h hbk rfl rfl rfl

theorem holdInv_cancelBooking (s : LedgerState) (bookingId callerId : Nat)
    (h : HoldInv s) : HoldInv (cancelBooking s bookingId callerId).1 := by
  unfold cancelBooking
  rcases hbk : s.bookings bookingId with _ | b
  · exact h
  · dsimp only
    by_cases how : b.ownerId ≠ callerId
    · rw [if_pos how]
      exact h
    · rw [if_neg how]
      by_cases hca : b.status = BookingStatus.CANCELLED
      · rw [if_pos hca]
        exact h
      · rw [if_neg hca]
        by_cases hpe : b.status = BookingStatus.PENDING
        · rw [if_pos hpe]
          exact holdInv_release_update s bookingId _ h (by simp) (by simp)
        · rw [if_neg hpe]
          by_cases hcf : b.status = BookingStatus.CONFIRMED
          · rw [if_pos hcf]
            exact holdInv_release_update s bookingId _ h (by simp) (by simp)
          · rw [if_neg hcf]
            exact h

theorem holdInv_expireBooking (cfg : Config) (s : LedgerState)
    (bookingId now : Nat) (h : HoldInv s) :
    HoldInv (expireBooking cfg s bookingId now).1 := by
  unfold expireBooking
  rcases hbk : s.bookings bookingId with _ | b
  · exact h
  · dsimp only
    by_cases hdue : (b.status = BookingStatus.DRAFT ∨ b.status = BookingStatus.PENDING) ∧
      (match b.expiresAt with
        | some t => decide (t < now)
        | none => decide (b.createdAt + cfg.draftTTL < now)) = true
    · rw [if_pos hdue]
      exact holdInv_release_update s bookingId _ h (by simp) (by simp)
    · rw [if_neg hdue]
      exact h

theorem holdInv_emptyState : HoldInv emptyState := by
  constructor
  · intro id _
    rfl
  · intro id b hb
    exact absurd hb (by simp [emptyState])

/-- Every reachable state of the booking core satisfies the
hold-conservation invariant. -/
theorem holdInv_reachable (cfg : Config) (s : LedgerState)
    (h : Reachable cfg s) : HoldInv s := by
  induction h with
  | init => exact holdInv_emptyState
  | createStep s a b c d e f g h2 i j _ ih =>
    exact holdInv_createBooking s a b c d e f g h2 i j ih
  | initiateStep s bookingId callerId now _ ih =>
    exact holdInv_initiatePayment cfg s bookingId callerId now ih
  | verifyStep s bookingId callerId sigOk _ ih =>
    exact holdInv_verifyPayment cfg s bookingId callerId sigOk ih
  | cancelStep s bookingId callerId _ ih =>
    exact holdInv_cancelBooking s bookingId callerId ih
  | expireStep s bookingId now _ ih =>
    exact holdInv_expireBooking cfg s bookingId now ih

theorem reachable_sDraft : Reachable cfgEx sDraft :=
  Reachable.createStep emptyState 1 100 200 5 8 2 39200 7 4 0 Reachable.init

theorem reachable_sPending : Reachable cfgEx sPending :=
  Reachable.initiateStep sDraft 1 7 50 reachable_sDraft

theorem verifyPayment_confirmed (cfg : Config) (s2 : LedgerState)
    (bookingId callerId : Nat) (sigOk : Bool) (b2 : Booking)
    (hb : s2.bookings bookingId = some b2) (hown : b2.ownerId = callerId)
    (hst : b2.status = BookingStatus.CONFIRMED) :
    verifyPayment cfg s2 bookingId callerId sigOk = (s2, Except.ok ()) := by
  unfold verifyPayment
  rw [hb]
  dsimp only
  rw [if_neg (fun hne => hne hown), if_pos hst]

/- ---- claims about the booking core (modelled from the spec) ---- -/

/-- Claim C2: at every reachable state of the booking core, a booking in
status DRAFT, CANCELLED, EXPIRED or PAYMENT_FAILED owns zero room-night
holds, and a PENDING or CONFIRMED booking owns exactly checkOut minus
checkIn holds, one per calendar night of the half-open stay interval. -/
theorem claim2_hold_conservation (cfg : Config) (s : LedgerState)
    (hr : Reachable cfg s) (bookingId : Nat) (b : Booking)
    (hb : s.bookings bookingId = some b) :
    ((b.status = BookingStatus.DRAFT ∨ b.status = BookingStatus.CANCELLED ∨
      b.status = BookingStatus.EXPIRED ∨ b.status = BookingStatus.PAYMENT_FAILED) →
      holdRowsOf s.holds bookingId = []) ∧
    ((b.status = BookingStatus.PENDING ∨ b.status = BookingStatus.CONFIRMED) →
      (holdRowsOf s.holds bookingId).length = b.checkOut - b.checkIn ∧
      (holdRowsOf s.holds bookingId).map Hold.night
        = stayNights b.checkIn b.checkOut) := by
  have hinv := holdInv_reachable cfg s hr
  constructor
  · intro hst
    refine (hinv.2 bookingId b hb).2 ?_ ?_
    · rcases hst with h | h | h | h <;> (rw [h]; simp)
    · rcases hst with h | h | h | h <;> (rw [h]; simp)
  · intro hpc
    have hmap := (hinv.2 bookingId b hb).1 hpc
    refine ⟨?_, hmap⟩
    have hlen := congrArg List.length hmap
    rw [List.length_map, length_stayNights] at hlen
    exact hlen

theorem claim2_witness :
    holdRowsOf sDraft.holds 1 = [] ∧
    (holdRowsOf sPending.holds 1).length = 8 - 5 ∧
    (holdRowsOf sPending.holds 1).map Hold.night = stayNights 5 8 := by
  have h1 := claim2_hold_conservation cfgEx sDraft reachable_sDraft 1 bookingDraftEx rfl
  have h2 := claim2_hold_conservation cfgEx sPending reachable_sPending 1
    bookingPendingEx rfl
  exact ⟨h1.1 (Or.inl rfl), (h2.2 (Or.inl rfl)).1, (h2.2 (Or.inl rfl)).2⟩

/-- Claim C3: tryAcquire is all-or-nothing and a conflicting InitiatePayment
is atomic: when some night of the range already carries a hold, tryAcquire
creates no hold rows and reports the conflict, and InitiatePayment returns
the starting state unchanged together with RoomUnavailable, leaving the
booking in DRAFT. -/
theorem claim3_all_or_nothing (cfg : Config) (s : LedgerState)
    (bookingId callerId now : Nat) (b : Booking)
    (hb : s.bookings bookingId = some b) (hown : b.ownerId = callerId)
    (hst : b.status = BookingStatus.DRAFT)
    (hc : ∃ n ∈ stayNights b.checkIn b.checkOut,
      nightHeld s.holds b.roomId n = true) :
    tryAcquire s.holds b.roomId b.checkIn b.checkOut bookingId = none ∧
    initiatePayment cfg s bookingId callerId now
      = (s, Except.error BookingError.RoomUnavailable) ∧
    (initiatePayment cfg s bookingId callerId now).1.bookings bookingId = some b := by
  have hta := tryAcquire_none_of_conflict s.holds b.roomId b.checkIn b.checkOut
    bookingId hc
  have heq : initiatePayment cfg s bookingId callerId now
      = (s, Except.error BookingError.RoomUnavailable) := by
    unfold initiatePayment
    rw [hb]
    dsimp only
    rw [if_neg (fun hne => hne hown), if_neg (not_not_intro hst), hta]
  exact ⟨hta, heq, by rw [heq]; exact hb⟩

theorem claim3_witness :
    tryAcquire sContested.holds 200 6 9 2 = none ∧
    initiatePayment cfgEx sContested 2 8 60
      = (sContested, Except.error BookingError.RoomUnavailable) := by
  have h := claim3_all_or_nothing cfgEx sContested 2 8 60
    { hotelId := 100, roomId := 200, checkIn := 6, checkOut := 9,
      guestCount := 2, totalAmount := 27000, ownerId := 8,
      status := BookingStatus.DRAFT, expiresAt := none, paymentOrderId := none,
      verifyAttemptCount := 0, refundEligible := false, createdAt := 0 }
    rfl rfl rfl ⟨6, by decide, by decide⟩
  exact ⟨h.1, h.2.1⟩

/-- Claim C4: VerifyPayment is idempotent on a confirmed booking: on a
PENDING booking a first call with a valid signature succeeds and moves it
to CONFIRMED, and a second call with the same valid signature returns
success while leaving the state, ledger included, entirely unchanged. -/
theorem claim4_verify_idempotent (cfg : Config) (s : LedgerState)
    (bookingId callerId : Nat) (b : Booking)
    (hb : s.bookings bookingId = some b) (hown : b.ownerId = callerId)
    (hst : b.status = BookingStatus.PENDING) :
    (verifyPayment cfg s bookingId callerId true).2 = Except.ok () ∧
    ((verifyPayment cfg s bookingId callerId true).1.bookings bookingId
      = some { b with status := BookingStatus.CONFIRMED }) ∧
    verifyPayment cfg (verifyPayment cfg s bookingId callerId true).1
        bookingId callerId true
      = ((verifyPayment cfg s bookingId callerId true).1, Except.ok ()) := by
  have heq : verifyPayment cfg s bookingId callerId true
      = ({ bookings := fun j => if j = bookingId then
             some { b with status := BookingStatus.CONFIRMED } else s.bookings j,
           holds := confirmHolds s.holds bookingId }, Except.ok ()) := by
    unfold verifyPayment
    rw [hb]
    dsimp only
    rw [if_neg (fun hne => hne hown), if_neg (by rw [hst]; simp),
      if_neg (not_not_intro hst), if_pos rfl]
  have hb1 : (verifyPayment cfg s bookingId callerId true).1.bookings bookingId
      = some { b with status := BookingStatus.CONFIRMED } := by
    rw [heq]
    dsimp only
    rw [if_pos rfl]
  refine ⟨by rw [heq], hb1, ?_⟩
  exact verifyPayment_confirmed cfg _ bookingId callerId true _ hb1 hown rfl

theorem claim4_witness :
    (verifyPayment cfgEx sPending 1 7 true).2 = Except.ok () ∧
    verifyPayment cfgEx (verifyPayment cfgEx sPending 1 7 true).1 1 7 true
      = ((verifyPayment cfgEx sPending 1 7 true).1, Except.ok ()) := by
  have h := claim4_verify_idempotent cfgEx sPending 1 7 bookingPendingEx rfl rfl rfl
  exact ⟨h.1, h.2.2⟩

/- ---- helper lemmas for repeated failed verification ---- -/

theorem setBooking_eq_self (s : LedgerState) (bookingId : Nat) (b : Booking)
    (hb : s.bookings bookingId = some b) : setBooking s bookingId b = s := by
  cases s with
  | mk bk hd =>
    unfold setBooking
    dsimp only
    congr 1
    funext j
    by_cases hj : j = bookingId
    · rw [if_pos hj, hj]
      exact hb.symm
    · rw [if_neg hj]

theorem setBooking_setBooking (s : LedgerState) (bookingId : Nat) (b1 b2 : Booking) :
    setBooking (setBooking s bookingId b1) bookingId b2 = setBooking s bookingId b2 := by
  unfold setBooking
  dsimp only
  congr 1
  funext j
  by_cases hj : j = bookingId
  · rw [if_pos hj, if_pos hj]
  · rw [if_neg hj, if_neg hj, if_neg hj]

theorem verifyPayment_fail_step (cfg : Config) (s : LedgerState)
    (bookingId callerId : Nat) (b : Booking)
    (hb : s.bookings bookingId = some b) (hown : b.ownerId = callerId)
    (hst : b.status = BookingStatus.PENDING)
    (hcnt : b.verifyAttemptCount + 1 ≤ cfg.maxVerifyAttempts) :
    verifyPayment cfg s bookingId callerId false
      = (setBooking s bookingId
           { b with verifyAttemptCount := b.verifyAttemptCount + 1 },
         Except.error BookingError.SignatureMismatch) := by
  unfold verifyPayment
  rw [hb]
  dsimp only
  rw [if_neg (fun hne => hne hown), if_neg (by rw [hst]; simp),
    if_neg (not_not_intro hst), if_neg (by simp), if_neg (by omega)]
  rfl

theorem verifyPayment_fail_exceed (cfg : Config) (s : LedgerState)
    (bookingId callerId : Nat) (b : Booking)
    (hb : s.bookings bookingId = some b) (hown : b.ownerId = callerId)
    (hst : b.status = BookingStatus.PENDING)
    (hcnt : b.verifyAttemptCount + 1 > cfg.maxVerifyAttempts) :
    verifyPayment cfg s bookingId callerId false
      = ({ bookings := fun j => if j = bookingId then
             some { b with
                    status := BookingStatus.PAYMENT_FAILED,
                    verifyAttemptCount := b.verifyAttemptCount + 1 }
           else s.bookings j,
           holds := releaseHolds s.holds bookingId },
         Except.error BookingError.SignatureMismatch) := by
  unfold verifyPayment
  rw [hb]
  dsimp only
  rw [if_neg (fun hne => hne hown), if_neg (by rw [hst]; simp),
    if_neg (not_not_intro hst), if_neg (by simp), if_pos hcnt]

theorem runVerifyFails_pending (cfg : Config) (bookingId callerId : Nat) :
    ∀ (k : Nat) (s : LedgerState) (b : Booking),
    s.bookings bookingId = some b → b.ownerId = callerId →
    b.status = BookingStatus.PENDING →
    b.verifyAttemptCount + k ≤ cfg.maxVerifyAttempts →
    runVerifyFails cfg s bookingId callerId k
      = (setBooking s bookingId
           { b with verifyAttemptCount := b.verifyAttemptCount + k },
         List.replicate k (Except.error BookingError.SignatureMismatch)) := by
  intro k
  induction k with
  | zero =>
    intro s b hb hown hst hcnt
    unfold runVerifyFails
    exact Prod.ext ((setBooking_eq_self s bookingId b hb).symm) rfl
  | succ k ih =>
    intro s b hb hown hst hcnt
    have hstep := verifyPayment_fail_step cfg s bookingId callerId b hb hown hst
      (by omega)
    unfold runVerifyFails
    rw [hstep]
    dsimp only
    have hb1 : (setBooking s bookingId
        { b with verifyAttemptCount := b.verifyAttemptCount + 1 }).bookings bookingId
        = some { b with verifyAttemptCount := b.verifyAttemptCount + 1 } := by
      unfold setBooking
      dsimp only
      rw [if_pos rfl]
    have hrec := ih (setBooking s bookingId
        { b with verifyAttemptCount := b.verifyAttemptCount + 1 })
      { b with verifyAttemptCount := b.verifyAttemptCount + 1 }
      hb1 hown hst (by dsimp only; omega)
    rw [hrec, setBooking_setBooking]
    dsimp only
    rw [show b.verifyAttemptCount + 1 + k = b.verifyAttemptCount + (k + 1) by omega]
    rfl

theorem runVerifyFails_add (cfg : Config) (bookingId callerId : Nat) :
    ∀ (j k : Nat) (s : LedgerState),
    runVerifyFails cfg s bookingId callerId (j + k)
      = ((runVerifyFails cfg (runVerifyFails cfg s bookingId callerId j).1
            bookingId callerId k).1,
         (runVerifyFails cfg s bookingId callerId j).2
           ++ (runVerifyFails cfg (runVerifyFails cfg s bookingId callerId j).1
                bookingId callerId k).2) := by
  intro j
  induction j with
  | zero =>
    intro k s
    simp only [Nat.zero_add, runVerifyFails, List.nil_append]
  | succ j ih =>
    intro k s
    rw [Nat.succ_add]
    show runVerifyFails cfg s bookingId callerId ((j + k) + 1) = _
    simp only [runVerifyFails]
    rw [ih k (verifyPayment cfg s bookingId callerId false).1]
    rw [List.cons_append]

/-- Claim C5: on a PENDING booking with a fresh attempt counter, each of
the first maxVerifyAttempts invalid-signature calls leaves the booking
PENDING with the counter incremented and fails with SignatureMismatch;
after maxVerifyAttempts + 1 calls the booking is PAYMENT_FAILED, its holds
are all released, and the room-nights are acquirable by any other caller. -/
theorem claim5_failed_verification (cfg : Config) (s : LedgerState)
    (bookingId callerId : Nat) (b : Booking)
    (hb : s.bookings bookingId = some b) (hown : b.ownerId = callerId)
    (hst : b.status = BookingStatus.PENDING) (hcnt : b.verifyAttemptCount = 0)
    (hexcl : ∀ h ∈ s.holds, h.roomId = b.roomId →
      h.night ∈ stayNights b.checkIn b.checkOut → h.bookingId = bookingId) :
    (∀ k ≤ cfg.maxVerifyAttempts,
      (runVerifyFails cfg s bookingId callerId k).1.bookings bookingId
        = some { b with verifyAttemptCount := k } ∧
      (runVerifyFails cfg s bookingId callerId k).2
        = List.replicate k (Except.error BookingError.SignatureMismatch)) ∧
    ((runVerifyFails cfg s bookingId callerId
        (cfg.maxVerifyAttempts + 1)).1.bookings bookingId
      = some { b with
               status := BookingStatus.PAYMENT_FAILED,
               verifyAttemptCount := cfg.maxVerifyAttempts + 1 }) ∧
    holdRowsOf (runVerifyFails cfg s bookingId callerId
      (cfg.maxVerifyAttempts + 1)).1.holds bookingId = [] ∧
    (runVerifyFails cfg s bookingId callerId (cfg.maxVerifyAttempts + 1)).2
      = List.replicate (cfg.maxVerifyAttempts + 1)
          (Except.error BookingError.SignatureMismatch) ∧
    (∀ otherId, ∃ newHolds,
      tryAcquire (runVerifyFails cfg s bookingId callerId
          (cfg.maxVerifyAttempts + 1)).1.holds b.roomId b.checkIn b.checkOut otherId
        = some newHolds) := by
  have hiter : ∀ k, k ≤ cfg.maxVerifyAttempts →
      runVerifyFails cfg s bookingId callerId k
        = (setBooking s bookingId { b with verifyAttemptCount := k },
           List.replicate k (Except.error BookingError.SignatureMismatch)) := by
    intro k hk
    have := runVerifyFails_pending cfg bookingId callerId k s b hb hown hst (by omega)
    rw [show b.verifyAttemptCount + k = k by omega] at this
    exact this
  have hsM := hiter cfg.maxVerifyAttempts (le_refl _)
  -- the final, exceeding call
  have hbM : (setBooking s bookingId
      { b with verifyAttemptCount := cfg.maxVerifyAttempts }).bookings bookingId
      = some { b with verifyAttemptCount := cfg.maxVerifyAttempts } := by
    unfold setBooking
    dsimp only
    rw [if_pos rfl]
  have hlast := verifyPayment_fail_exceed cfg
    (setBooking s bookingId { b with verifyAttemptCount := cfg.maxVerifyAttempts })
    bookingId callerId { b with verifyAttemptCount := cfg.maxVerifyAttempts }
    hbM hown hst (by dsimp only; omega)
  have hsplit := runVerifyFails_add cfg bookingId callerId cfg.maxVerifyAttempts 1 s
  rw [hsM] at hsplit
  dsimp only at hsplit
  have hone : runVerifyFails cfg
      (setBooking s bookingId { b with verifyAttemptCount := cfg.maxVerifyAttempts })
      bookingId callerId 1
      = ((verifyPayment cfg
            (setBooking s bookingId
              { b with verifyAttemptCount := cfg.maxVerifyAttempts })
            bookingId callerId false).1,
         [(verifyPayment cfg
            (setBooking s bookingId
              { b with verifyAttemptCount := cfg.maxVerifyAttempts })
            bookingId callerId false).2]) := rfl
  rw [hone, hlast] at hsplit
  dsimp only at hsplit
  constructor
  · intro k hk
    rw [hiter k hk]
    constructor
    · unfold setBooking
      dsimp only
      rw [if_pos rfl]
    · rfl
  refine ⟨?_, ?_, ?_, ?_⟩
  · rw [hsplit]
    dsimp only
    rw [if_pos rfl]
  · rw [hsplit]
    dsimp only
    exact holdRowsOf_release_self _ bookingId
  · rw [hsplit]
    dsimp only
    exact (List.replicate_succ' _ _).symm
  · intro otherId
    rw [hsplit]
    dsimp only
    refine ⟨_, tryAcquire_some_of_free _ _ _ _ otherId ?_⟩
    intro n hn
    exact nightHeld_release_false s.holds bookingId b.roomId n
      (fun h hmem hr hnight => hexcl h hmem hr (by rw [hnight]; exact hn))

theorem claim5_witness :
    (runVerifyFails cfgEx sPending 1 7 4).1.bookings 1
      = some { bookingPendingEx with
               status := BookingStatus.PAYMENT_FAILED, verifyAttemptCount := 4 } ∧
    holdRowsOf (runVerifyFails cfgEx sPending 1 7 4).1.holds 1 = [] ∧
    (runVerifyFails cfgEx sPending 1 7 4).2
      = List.replicate 4 (Except.error BookingError.SignatureMismatch) ∧
    (∃ newHolds, tryAcquire (runVerifyFails cfgEx sPending 1 7 4).1.holds 200 5 8 2
      = some newHolds) := by
  have h := claim5_failed_verification cfgEx sPending 1 7 bookingPendingEx
    rfl rfl rfl rfl (by decide)
  exact ⟨h.2.1, h.2.2.1, h.2.2.2.1, h.2.2.2.2 2⟩

/- ---- helper lemmas for concurrent InitiatePayment batches ---- -/

theorem initiatePayment_conflict (cfg : Config) (s : LedgerState)
    (bookingId callerId now : Nat) (b : Booking)
    (hb : s.bookings bookingId = some b) (hown : b.ownerId = callerId)
    (hst : b.status = BookingStatus.DRAFT)
    (hc : ∃ n ∈ stayNights b.checkIn b.checkOut,
      nightHeld s.holds b.roomId n = true) :
    initiatePayment cfg s bookingId callerId now
      = (s, Except.error BookingError.RoomUnavailable) := by
  unfold initiatePayment
  rw [hb]
  dsimp only
  rw [if_neg (fun hne => hne hown), if_neg (not_not_intro hst),
    tryAcquire_none_of_conflict s.holds b.roomId b.checkIn b.checkOut bookingId hc]

theorem initiatePayment_success (cfg : Config) (s : LedgerState)
    (bookingId callerId now : Nat) (b : Booking)
    (hb : s.bookings bookingId = some b) (hown : b.ownerId = callerId)
    (hst : b.status = BookingStatus.DRAFT)
    (hfree : ∀ n ∈ stayNights b.checkIn b.checkOut,
      nightHeld s.holds b.roomId n = false) :
    initiatePayment cfg s bookingId callerId now
      = ({ bookings := fun j => if j = bookingId then
             some { b with
                    status := BookingStatus.PENDING,
                    expiresAt := some (now + cfg.holdTTL),
                    paymentOrderId :=
                      some (createOrder bookingId b.totalAmount).gatewayOrderId,
                    verifyAttemptCount := 0 }
           else s.bookings j,
           holds := s.holds ++ (stayNights b.checkIn b.checkOut).map
             (fun n => { roomId := b.roomId, night := n, bookingId := bookingId,
                         permanent := false }) },
         Except.ok (createOrder bookingId b.totalAmount)) := by
  unfold initiatePayment
  rw [hb]
  dsimp only
  rw [if_neg (fun hne => hne hown), if_neg (not_not_intro hst),
    tryAcquire_some_of_free s.holds b.roomId b.checkIn b.checkOut bookingId hfree]

theorem runInitiates_all_conflict (cfg : Config) (now : Nat) :
    ∀ (calls : List (Nat × Nat)) (s : LedgerState),
    (∀ p ∈ calls, ∃ b, s.bookings p.1 = some b ∧ b.ownerId = p.2 ∧
      b.status = BookingStatus.DRAFT ∧
      ∃ n ∈ stayNights b.checkIn b.checkOut, nightHeld s.holds b.roomId n = true) →
    runInitiates cfg s now calls
      = (s, calls.map (fun _ => Except.error BookingError.RoomUnavailable)) := by
  intro calls
  induction calls with
  | nil =>
    intro s _
    rfl
  | cons p rest ih =>
    intro s hall
    obtain ⟨b, hb, hown, hst, hc⟩ := hall p (List.mem_cons_self _ _)
    show (let step := initiatePayment cfg s p.1 p.2 now
          let restRun := runInitiates cfg step.1 now rest
          (restRun.1, step.2 :: restRun.2)) = _
    rw [initiatePayment_conflict cfg s p.1 p.2 now b hb hown hst hc]
    dsimp only
    rw [ih s (fun q hq => hall q (List.mem_cons_of_mem _ hq))]
    rfl

theorem callsAreDraft_mem {s : LedgerState} {roomId : Nat} {calls : List (Nat × Nat)}
    (h : callsAreDraft s roomId calls = true) {p : Nat × Nat} (hp : p ∈ calls) :
    ∃ b, s.bookings p.1 = some b ∧ b.ownerId = p.2 ∧
      b.status = BookingStatus.DRAFT ∧ b.roomId = roomId := by
  unfold callsAreDraft at h
  rw [List.all_eq_true] at h
  have h2 := h p hp
  rcases hb : s.bookings p.1 with _ | b
  · rw [hb] at h2
    simp at h2
  · rw [hb] at h2
    simp only [Bool.and_eq_true, beq_iff_eq] at h2
    exact ⟨b, rfl, h2.1.1, h2.1.2, h2.2⟩

theorem callsOverlap_mem {s : LedgerState} {calls : List (Nat × Nat)}
    (h : callsOverlap s calls = true) {p q : Nat × Nat}
    (hp : p ∈ calls) (hq : q ∈ calls) {bp bq : Booking}
    (hbp : s.bookings p.1 = some bp) (hbq : s.bookings q.1 = some bq) :
    max bp.checkIn bq.checkIn < min bp.checkOut bq.checkOut := by
  unfold callsOverlap at h
  rw [List.all_eq_true] at h
  have h2 := h p hp
  rw [List.all_eq_true] at h2
  have h3 := h2 q hq
  rw [hbp, hbq] at h3
  simpa using h3

theorem callNightsFree_mem {s : LedgerState} {calls : List (Nat × Nat)}
    (h : callNightsFree s calls = true) {p : Nat × Nat} (hp : p ∈ calls)
    {b : Booking} (hb : s.bookings p.1 = some b) :
    ∀ n ∈ stayNights b.checkIn b.checkOut, nightHeld s.holds b.roomId n = false := by
  unfold callNightsFree at h
  rw [List.all_eq_true] at h
  have h2 := h p hp
  rw [hb] at h2
  rw [List.all_eq_true] at h2
  intro n hn
  have h3 := h2 n hn
  simpa using h3

theorem countP_isOk_map_error (rest : List (Nat × Nat)) :
    ((rest.map (fun _ => (Except.error BookingError.RoomUnavailable :
        Except BookingError OrderParams))).countP isOkResult) = 0 := by
  induction rest with
  | nil => rfl
  | cons p rest ih =>
    rw [List.map_cons, List.countP_cons]
    simp [isOkResult, ih]

theorem mem_stayNights_iff {n ci co : Nat} (h : ci ≤ co) :
    n ∈ stayNights ci co ↔ ci ≤ n ∧ n < co := by
  unfold stayNights
  rw [List.mem_range'_1]
  omega

/-- Claim C1: mutual exclusion of contested room-nights. For every batch of
InitiatePayment calls on DRAFT bookings of the same room whose date ranges
pairwise overlap, starting from a state where those nights are free,
serializing the batch in any order makes exactly the first call succeed
with the gateway order parameters and every other call fail with
RoomUnavailable; in particular exactly one call of the batch succeeds. -/
theorem claim1_mutual_exclusion (cfg : Config) (s : LedgerState)
    (now roomId : Nat) (c0 : Nat × Nat) (rest : List (Nat × Nat))
    (hdraft : callsAreDraft s roomId (c0 :: rest) = true)
    (hov : callsOverlap s (c0 :: rest) = true)
    (hfree : callNightsFree s (c0 :: rest) = true)
    (hnodup : ((c0 :: rest).map Prod.fst).Nodup) :
    ∃ ord, (runInitiates cfg s now (c0 :: rest)).2
        = Except.ok ord
          :: rest.map (fun _ => Except.error BookingError.RoomUnavailable) ∧
      (runInitiates cfg s now (c0 :: rest)).2.countP isOkResult = 1 := by
  obtain ⟨b0, hb0, hown0, hst0, hroom0⟩ :=
    callsAreDraft_mem hdraft (List.mem_cons_self _ _)
  have hfree0 := callNightsFree_mem hfree (List.mem_cons_self _ _) hb0
  have hsucc := initiatePayment_success cfg s c0.1 c0.2 now b0 hb0 hown0 hst0 hfree0
  have hnotin : c0.1 ∉ rest.map Prod.fst := by
    rw [List.map_cons, List.nodup_cons] at hnodup
    exact hnodup.1
  have hov00 := callsOverlap_mem hov (List.mem_cons_self _ _)
    (List.mem_cons_self _ _) hb0 hb0
  rw [max_self, min_self] at hov00
  have hall : ∀ q ∈ rest, ∃ bq,
      (initiatePayment cfg s c0.1 c0.2 now).1.bookings q.1 = some bq ∧
      bq.ownerId = q.2 ∧ bq.status = BookingStatus.DRAFT ∧
      ∃ n ∈ stayNights bq.checkIn bq.checkOut,
        nightHeld (initiatePayment cfg s c0.1 c0.2 now).1.holds bq.roomId n
          = true := by
    intro q hq
    obtain ⟨bq, hbq, hownq, hstq, hroomq⟩ :=
      callsAreDraft_mem hdraft (List.mem_cons_of_mem _ hq)
    have hne : q.1 ≠ c0.1 := by
      intro he
      exact hnotin (he ▸ List.mem_map_of_mem Prod.fst hq)
    have hovq := callsOverlap_mem hov (List.mem_cons_of_mem _ hq)
      (List.mem_cons_self _ _) hbq hb0
    have hovqq := callsOverlap_mem hov (List.mem_cons_of_mem _ hq)
      (List.mem_cons_of_mem _ hq) hbq hbq
    rw [max_self, min_self] at hovqq
    refine ⟨bq, ?_, hownq, hstq, max bq.checkIn b0.checkIn, ?_, ?_⟩
    · rw [hsucc]
      dsimp only
      rw [if_neg hne]
      exact hbq
    · rw [mem_stayNights_iff (le_of_lt hovqq)]
      exact ⟨le_max_left _ _, lt_of_lt_of_le hovq (min_le_left _ _)⟩
    · rw [hsucc, hroomq]
      dsimp only
      rw [nightHeld_append]
      have hmem0 : max bq.checkIn b0.checkIn ∈ stayNights b0.checkIn b0.checkOut := by
        rw [mem_stayNights_iff (le_of_lt hov00)]
        exact ⟨le_max_right _ _, lt_of_lt_of_le hovq (min_le_right _ _)⟩
      rw [← hroom0,
        nightHeld_newRows (stayNights b0.checkIn b0.checkOut) b0.roomId c0.1
          (max bq.checkIn b0.checkIn) hmem0]
      rw [Bool.or_true]
  have hrest := runInitiates_all_conflict cfg now rest
    (initiatePayment cfg s c0.1 c0.2 now).1 hall
  have h2 : runInitiates cfg s now (c0 :: rest)
      = ((runInitiates cfg (initiatePayment cfg s c0.1 c0.2 now).1 now rest).1,
         (initiatePayment cfg s c0.1 c0.2 now).2
           :: (runInitiates cfg (initiatePayment cfg s c0.1 c0.2 now).1 now
                rest).2) := rfl
  have hres : (runInitiates cfg s now (c0 :: rest)).2
      = Except.ok (createOrder c0.1 b0.totalAmount)
        :: rest.map (fun _ => Except.error BookingError.RoomUnavailable) := by
    rw [h2]
    dsimp only
    rw [hrest]
    dsimp only
    rw [hsucc]
  refine ⟨createOrder c0.1 b0.totalAmount, hres, ?_⟩
  rw [hres, List.countP_cons]
  simp [isOkResult, countP_isOk_map_error rest]

theorem claim1_witness :
    ∃ ord, (runInitiates cfgEx sTwoDrafts 0 [(1, 7), (2, 8)]).2
        = [Except.ok ord, Except.error BookingError.RoomUnavailable] ∧
      (runInitiates cfgEx sTwoDrafts 0 [(1, 7), (2, 8)]).2.countP isOkResult = 1 := by
  obtain ⟨ord, h1, h2⟩ := claim1_mutual_exclusion cfgEx sTwoDrafts 0 200 (1, 7)
    [(2, 8)] (by decide) (by decide) (by decide) (by decide)
  exact ⟨ord, h1, h2⟩
